import Mathlib

/-!
Verification development for the invoice-extraction pipeline of
`src/app.py` (factures-ia).

The pipeline is embedded shallowly:

* JSON values returned by `json.loads` are modelled by the inductive
  type `Json`; Python dicts are association lists with unique keys
  (duplicate keys in a JSON object text keep the first position and the
  last value, as in CPython).
* `json.loads` is modelled by `json_loads`, a fuel-based recursive
  descent parser over the character list of the input, following the
  JSON grammar accepted by Python's `json` module (including the
  non-standard `NaN` / `Infinity` / `-Infinity` literals).  Numbers are
  kept as their source lexeme.
* The response interpreter inside `call_openai_vision` (strip, direct
  parse, greedy regex fallback, error with a 300-character snippet) is
  `interpret`.
* `json_to_excel_bytes` is modelled down to the level of sheet
  contents: sheet names, header rows and cell values.  The Office Open
  XML byte serialisation performed by `openpyxl` (a pure container
  format around these contents) is abstracted away.
* The document normalizer (`pdf_to_image_bytes`,
  `image_file_to_bytes`) is modelled with the external renderer
  (`pdf2image.convert_from_bytes`) and decoder (`PIL.Image.open`)
  passed as explicit function arguments, and JPEG encoding kept
  symbolic as a constructor recording the quality setting.
-/

/-- JSON values as produced by Python's `json.loads`.  A number keeps its
source lexeme (Python distinguishes `int` / `float`, which the pipeline
never inspects).  An object is an association list with unique keys in
insertion order, matching a CPython `dict`. -/
inductive Json where
  | null : Json
  | bool (b : Bool) : Json
  | num (lit : String) : Json
  | str (s : String) : Json
  | arr (elems : List Json) : Json
  | obj (members : List (String × Json)) : Json

/-- A Python `dict` whose keys are strings, as an association list in
insertion order with unique keys. -/
abbrev Dict := List (String × Json)

/-- First entry of the association list with the given key, modelling a
Python `dict` key lookup (keys are unique, so first = only). -/
def dictLookup (d : Dict) (k : String) : Option (String × Json) :=
  d.find? (fun p => p.1 == k)

/-- Python `d.get(k, dflt)`: the stored value when the key is present,
the default otherwise. -/
def dictGet (d : Dict) (k : String) (dflt : Json) : Json :=
  match dictLookup d k with
  | some p => p.2
  | none => dflt

/-- CPython `dict` insertion: an existing key keeps its position and
receives the new value; a fresh key is appended. -/
def insertKV (d : Dict) (k : String) (v : Json) : Dict :=
  if d.any (fun p => p.1 == k) then
    d.map (fun p => if p.1 == k then (k, v) else p)
  else
    d ++ [(k, v)]

/-- The whitespace characters skipped between JSON tokens by Python's
`json` module. -/
def jsonWs (c : Char) : Bool :=
  c = ' ' || c = '\t' || c = '\n' || c = '\r'

/-- Drop leading JSON whitespace. -/
def skipWs (cs : List Char) : List Char :=
  cs.dropWhile jsonWs

/-- Value of a hexadecimal digit, for `\uXXXX` string escapes. -/
def hexVal (c : Char) : Option Nat :=
  if '0' ≤ c ∧ c ≤ '9' then some (c.toNat - '0'.toNat)
  else if 'a' ≤ c ∧ c ≤ 'f' then some (c.toNat - 'a'.toNat + 10)
  else if 'A' ≤ c ∧ c ≤ 'F' then some (c.toNat - 'A'.toNat + 10)
  else none

/-- Body of a JSON string literal, after the opening quote.  Returns the
decoded string and the input remaining after the closing quote.  Escapes
follow the JSON grammar; unescaped control characters are rejected, as
in Python's strict mode. -/
def parseStrAux : Nat → List Char → List Char → Option (String × List Char)
  | 0, _, _ => none
  | _ + 1, _, [] => none
  | f + 1, acc, c :: rest =>
    if c = '"' then
      some (String.mk acc.reverse, rest)
    else if c = '\\' then
      match rest with
      | [] => none
      | e :: rest1 =>
        if e = '"' then parseStrAux f ('"' :: acc) rest1
        else if e = '\\' then parseStrAux f ('\\' :: acc) rest1
        else if e = '/' then parseStrAux f ('/' :: acc) rest1
        else if e = 'b' then parseStrAux f ('\x08' :: acc) rest1
        else if e = 'f' then parseStrAux f ('\x0c' :: acc) rest1
        else if e = 'n' then parseStrAux f ('\n' :: acc) rest1
        else if e = 'r' then parseStrAux f ('\r' :: acc) rest1
        else if e = 't' then parseStrAux f ('\t' :: acc) rest1
        else if e = 'u' then
          match rest1 with
          | a :: b :: c2 :: d :: rest2 =>
            match hexVal a, hexVal b, hexVal c2, hexVal d with
            | some ha, some hb, some hc, some hd =>
              parseStrAux f (Char.ofNat (((ha * 16 + hb) * 16 + hc) * 16 + hd) :: acc) rest2
            | _, _, _, _ => none
          | _ => none
        else none
    else if c.toNat < 32 then none
    else parseStrAux f (c :: acc) rest

/-- Integer part of a JSON number: `0`, or a nonzero digit followed by
digits (leading zeros are rejected, as in the JSON grammar). -/
def parseIntPart : List Char → Option (List Char × List Char)
  | [] => none
  | c :: rest =>
    if c = '0' then some (['0'], rest)
    else if c.isDigit then
      some (c :: rest.takeWhile Char.isDigit, rest.dropWhile Char.isDigit)
    else none

/-- Optional fraction part `.digits`; when absent or malformed nothing
is consumed (a malformed tail is then rejected by the caller as extra
input, matching the regex used by Python's `json` scanner). -/
def parseFracPart (cs : List Char) : List Char × List Char :=
  match cs with
  | '.' :: rest =>
    let ds := rest.takeWhile Char.isDigit
    if ds.isEmpty then ([], cs) else ('.' :: ds, rest.dropWhile Char.isDigit)
  | _ => ([], cs)

/-- Optional exponent part `e[+-]digits`, same convention as
`parseFracPart`. -/
def parseExpPart (cs : List Char) : List Char × List Char :=
  match cs with
  | e :: rest =>
    if e = 'e' ∨ e = 'E' then
      match rest with
      | s :: rest1 =>
        if s = '+' ∨ s = '-' then
          let ds := rest1.takeWhile Char.isDigit
          if ds.isEmpty then ([], cs) else (e :: s :: ds, rest1.dropWhile Char.isDigit)
        else
          let ds := rest.takeWhile Char.isDigit
          if ds.isEmpty then ([], cs) else (e :: ds, rest.dropWhile Char.isDigit)
      | [] => ([], cs)
    else ([], cs)
  | [] => ([], cs)

/-- Unsigned JSON number lexeme starting at the head of the input. -/
def parseNum (cs : List Char) : Option (List Char × List Char) :=
  match parseIntPart cs with
  | none => none
  | some (ip, rest) =>
    let (fp, rest1) := parseFracPart rest
    let (ep, rest2) := parseExpPart rest1
    some (ip ++ fp ++ ep, rest2)

mutual

/-- One JSON value, preceded by optional whitespace; models the value
grammar of Python's `json.loads` (with its `NaN` / `Infinity`
extensions).  The fuel argument only bounds recursion depth and loop
length; `json_loads` supplies enough for any input. -/
def parseValue : Nat → List Char → Option (Json × List Char)
  | 0, _ => none
  | f + 1, cs =>
    match skipWs cs with
    | [] => none
    | '\x7b' :: rest =>
      match skipWs rest with
      | '\x7d' :: rest1 => some (Json.obj [], rest1)
      | _ => parseMembers f rest []
    | '[' :: rest =>
      match skipWs rest with
      | ']' :: rest1 => some (Json.arr [], rest1)
      | _ => parseElems f rest []
    | '"' :: rest =>
      match parseStrAux (rest.length + 1) [] rest with
      | some (s, rest1) => some (Json.str s, rest1)
      | none => none
    | '-' :: rest =>
      match rest with
      | 'I' :: 'n' :: 'f' :: 'i' :: 'n' :: 'i' :: 't' :: 'y' :: rest1 =>
        some (Json.num "-Infinity", rest1)
      | _ =>
        match parseNum rest with
        | some (lex, rest1) => some (Json.num (String.mk ('-' :: lex)), rest1)
        | none => none
    | 't' :: 'r' :: 'u' :: 'e' :: rest => some (Json.bool true, rest)
    | 'f' :: 'a' :: 'l' :: 's' :: 'e' :: rest => some (Json.bool false, rest)
    | 'n' :: 'u' :: 'l' :: 'l' :: rest => some (Json.null, rest)
    | 'N' :: 'a' :: 'N' :: rest => some (Json.num "NaN", rest)
    | 'I' :: 'n' :: 'f' :: 'i' :: 'n' :: 'i' :: 't' :: 'y' :: rest =>
      some (Json.num "Infinity", rest)
    | cs1 =>
      match parseNum cs1 with
      | some (lex, rest1) => some (Json.num (String.mk lex), rest1)
      | none => none

/-- Members of a non-empty JSON object, starting after the opening
brace (or after a comma). -/
def parseMembers : Nat → List Char → Dict → Option (Json × List Char)
  | 0, _, _ => none
  | f + 1, cs, acc =>
    match skipWs cs with
    | '"' :: rest =>
      match parseStrAux (rest.length + 1) [] rest with
      | some (k, rest1) =>
        match skipWs rest1 with
        | ':' :: rest2 =>
          match parseValue f rest2 with
          | some (v, rest3) =>
            match skipWs rest3 with
            | ',' :: rest4 => parseMembers f rest4 (insertKV acc k v)
            | '\x7d' :: rest4 => some (Json.obj (insertKV acc k v), rest4)
            | _ => none
          | none => none
        | _ => none
      | none => none
    | _ => none

/-- Elements of a non-empty JSON array, starting after the opening
bracket (or after a comma). -/
def parseElems : Nat → List Char → List Json → Option (Json × List Char)
  | 0, _, _ => none
  | f + 1, cs, acc =>
    match parseValue f cs with
    | some (v, rest) =>
      match skipWs rest with
      | ',' :: rest1 => parseElems f rest1 (acc ++ [v])
      | ']' :: rest1 => some (Json.arr (acc ++ [v]), rest1)
      | _ => none
    | none => none

end

/-- Model of Python `json.loads`: parse one value and require that only
whitespace remains (otherwise Python raises `Extra data`).  The fuel
`2 * length + 2` dominates the recursion depth, which consumes at least
one character every two fuel steps. -/
def json_loads (s : String) : Option Json :=
  match parseValue (2 * s.data.length + 2) s.data with
  | some (j, rest) => if (skipWs rest).isEmpty then some j else none
  | none => none

/-- Whitespace stripped at both ends by Python `str.strip()` (the ASCII
whitespace relevant to model responses). -/
def pyWs (c : Char) : Bool :=
  c = ' ' || c = '\t' || c = '\n' || c = '\r' || c = '\x0b' || c = '\x0c'

/-- Model of Python `str.strip()`. -/
def pyStrip (s : String) : String :=
  String.mk (((s.data.dropWhile pyWs).reverse.dropWhile pyWs).reverse)

/-- Model of the Python slice `s[:300]` used for the diagnostic
snippet. -/
def take300 (s : String) : String :=
  String.mk (s.data.take 300)

/-- Model of `re.search(r"\x7b.*\x7d", content, flags=re.S)`: the greedy
dot-matches-newline match runs from the first opening brace to the last
closing brace of the text, and exists exactly when some closing brace
follows the first opening brace. -/
def braceSpan (s : String) : Option String :=
  let cs := s.data
  match List.findIdx? (fun c => c = '\x7b') cs with
  | none => none
  | some i =>
    match List.findIdx? (fun c => c = '\x7d') cs.reverse with
    | none => none
    | some jr =>
      let j := cs.length - 1 - jr
      if i < j then some (String.mk ((cs.drop i).take (j - i + 1))) else none

/-- Failure outcomes of the response interpreter inside
`call_openai_vision`. -/
inductive InterpretError where
  /-- The `ValueError` raised on line 102 of `src/app.py`,
  `"Réponse non JSON: " + content[:300]`; it carries the diagnostic
  snippet `content[:300]`. -/
  | unparsableResponse (snippet : String) : InterpretError
  /-- A `json.JSONDecodeError` escaping from the fallback
  `json.loads(m.group(0))` on line 101 of `src/app.py`: the braced span
  existed but was not valid JSON, and the error propagates uncaught,
  without the snippet. -/
  | jsonDecodeFailure : InterpretError

/-- The response-interpretation tail of `call_openai_vision`
(lines 91-102 of `src/app.py`): strip the raw model text, try a direct
`json.loads`, on failure search for the greedy brace span and parse
that, and otherwise raise `ValueError` with a 300-character snippet. -/
def interpret (rawText : String) : Except InterpretError Json :=
  let content := pyStrip rawText
  match json_loads content with
  | some j => Except.ok j
  | none =>
    match braceSpan content with
    | some span =>
      match json_loads span with
      | some j => Except.ok j
      | none => Except.error InterpretError.jsonDecodeFailure
    | none => Except.error (InterpretError.unparsableResponse (take300 content))

/-- The twelve scalar header fields of the extraction schema, in the
order the `meta` dict of `json_to_excel_bytes` declares them
(lines 107-120 of `src/app.py`), which is also the order of the prompt
skeleton. -/
def headerFields : List String :=
  ["fournisseur", "siren_ou_siret", "tva_intra", "client_nom",
   "client_adresse", "numero_facture", "date_facture", "date_echeance",
   "total_ht", "tva", "total_ttc", "devise"]

/-- The six line-item fields, in the order of the fallback empty sheet
on line 136 of `src/app.py` (also the prompt skeleton order). -/
def lineFields : List String :=
  ["description", "quantite", "unite", "prix_unitaire_ht",
   "tva_pourcent", "total_ligne_ttc"]

/-- The `meta` dict of `json_to_excel_bytes`: every header field mapped
to `data.get(field, "")`. -/
def metaRow (data : Dict) : Dict :=
  headerFields.map (fun k => (k, dictGet data k (Json.str "")))

/-- Append those of the given keys not yet present, keeping first
positions: one step of the column inference performed by the pandas
records constructor. -/
def addKeys (acc : List String) (ks : List String) : List String :=
  ks.foldl (fun a k => if k ∈ a then a else a ++ [k]) acc

/-- Columns of a pandas DataFrame built from a list of mappings: the
keys in order of first appearance across the rows. -/
def firstKeys (recs : List Dict) : List String :=
  recs.foldl (fun a r => addKeys a (r.map Prod.fst)) []

/-- A pandas DataFrame as built from a list of mappings (the only
construction `json_to_excel_bytes` uses): the inferred column list and
the row mappings.  A row missing a column holds NaN there, recovered by
`sheetRows` as an absent cell. -/
structure DataFrame where
  cols : List String
  recs : List Dict

/-- `pd.DataFrame(recs)` for a list of mappings. -/
def dfOfRecords (recs : List Dict) : DataFrame :=
  { cols := firstKeys recs, recs := recs }

/-- pandas `df.empty`: true when either axis has length zero. -/
def DataFrame.isEmpty (df : DataFrame) : Bool :=
  df.recs.isEmpty || df.cols.isEmpty

/-- One sheet of the spreadsheet export as written by
`df.to_excel(..., index=False)`: the header row of column names
followed by the data rows; a `none` cell is a NaN (missing key),
written as an empty cell. -/
structure Sheet where
  header : List String
  rows : List (List (Option Json))

/-- The sheet contents `to_excel` derives from a DataFrame. -/
def sheetOfDf (df : DataFrame) : Sheet :=
  { header := df.cols,
    rows := df.recs.map (fun r =>
      df.cols.map (fun c => (dictLookup r c).map Prod.snd)) }

/-- A line-item entry as a mapping, for the pandas records
constructor.  The modelled fragment is lists of mappings, the shape the
extraction schema prescribes for `lignes`; a non-mapping entry is
modelled as the empty mapping. -/
def Json.toDict : Json → Dict
  | .obj kvs => kvs
  | _ => []

/-- Whether a JSON value is an object (a Python mapping). -/
def Json.isObj : Json → Bool
  | .obj _ => true
  | _ => false

/-- Keys of a JSON object, in order; empty for non-objects. -/
def Json.keys : Json → List String
  | .obj kvs => kvs.map Prod.fst
  | _ => []

/-- Lines 124-126 of `src/app.py`: `lignes = data.get("lignes", [])`
followed by the `isinstance(lignes, list)` guard that replaces any
non-list value with `[]`. -/
def lignesList (data : Dict) : List Json :=
  match dictGet data "lignes" (Json.arr []) with
  | .arr ls => ls
  | _ => []

/-- The sheet named "Facture": one row built from the `meta` dict. -/
def factureSheet (data : Dict) : Sheet :=
  sheetOfDf (dfOfRecords [metaRow data])

/-- The sheet named "Lignes": the DataFrame of the line-item mappings
when it is non-empty, otherwise the zero-row sheet with the six
line-item column headers (lines 132-138 of `src/app.py`). -/
def lignesSheet (data : Dict) : Sheet :=
  let dfLignes := dfOfRecords ((lignesList data).map Json.toDict)
  if dfLignes.isEmpty then
    { header := lineFields, rows := [] }
  else
    sheetOfDf dfLignes

/-- Sheet contents of the workbook produced by `json_to_excel_bytes`:
the "Facture" sheet then the "Lignes" sheet, in writing order. -/
def json_to_excel_bytes (data : Dict) : List (String × Sheet) :=
  [("Facture", factureSheet data), ("Lignes", lignesSheet data)]

/-- The dynamic error raised when `json_to_excel_bytes` is applied to a
non-mapping value: `data.get` does not exist on lists, strings or
numbers. -/
inductive PyError where
  | attributeError : PyError

/-- The call `json_to_excel_bytes(data)` on line 179 of `src/app.py`
with `data` an arbitrary parsed JSON value: on a mapping it projects,
on anything else Python raises `AttributeError` at `data.get`. -/
def applyProjector (data : Json) : Except PyError (List (String × Sheet)) :=
  match data with
  | .obj kvs => Except.ok (json_to_excel_bytes kvs)
  | _ => Except.error PyError.attributeError

/-- Lines 172-179 of `src/app.py`: the parsed response is handed to the
projector with no check that it is a mapping. -/
def interpretThenProject (rawText : String) :
    Except InterpretError (Except PyError (List (String × Sheet))) :=
  (interpret rawText).map applyProjector

mutual

/-- Python `repr` of a parsed JSON value, restricted to what the
pipeline can observe: scalars exactly (`None`, `True`, `False`, number
lexeme, quoted string), containers recursively with bracket and
separator conventions (string escaping inside `repr` is not
modelled). -/
def pyRepr : Json → String
  | .null => "None"
  | .bool true => "True"
  | .bool false => "False"
  | .num lit => lit
  | .str s => "\x27" ++ s ++ "\x27"
  | .arr elems => "[" ++ pyReprSep elems ++ "]"
  | .obj kvs => "\x7b" ++ pyReprMembers kvs ++ "\x7d"

/-- Comma-separated `repr` of list elements. -/
def pyReprSep : List Json → String
  | [] => ""
  | [x] => pyRepr x
  | x :: xs => pyRepr x ++ ", " ++ pyReprSep xs

/-- Comma-separated `repr` of dict members. -/
def pyReprMembers : List (String × Json) → String
  | [] => ""
  | [(k, v)] => "\x27" ++ k ++ "\x27: " ++ pyRepr v
  | (k, v) :: xs => "\x27" ++ k ++ "\x27: " ++ pyRepr v ++ ", " ++ pyReprMembers xs

end

/-- Python `str()` as applied by the f-string on line 183: the string
itself for strings, `repr` otherwise. -/
def pyStr : Json → String
  | .str s => s
  | v => pyRepr v

/-- The suggested download filename on line 183 of `src/app.py`:
`f"facture_(data.get('numero_facture','extrait')).xlsx"` — the default
is the plain string `"extrait"`, used only when the key is absent. -/
def downloadFilename (data : Dict) : String :=
  "facture_" ++
    (match dictLookup data "numero_facture" with
     | some p => pyStr p.2
     | none => "extrait") ++ ".xlsx"

/-- Color modes of a PIL raster image (the ones relevant to invoice
uploads). -/
inductive ImgMode where
  | RGB : ImgMode
  | RGBA : ImgMode
  | L : ImgMode
  | P : ImgMode
  | CMYK : ImgMode

/-- A decoded raster page: mode, dimensions and pixel payload (kept
abstract as a byte list; the pipeline never inspects it). -/
structure RasterImage where
  mode : ImgMode
  width : Nat
  height : Nat
  pixelData : List Nat

/-- The canonical image emitted by the normalizer: a JPEG encoding of a
single page at the recorded quality setting.  The byte serialisation
performed by PIL is kept symbolic. -/
inductive EncodedImage where
  | jpeg (quality : Nat) (page : RasterImage) : EncodedImage

/-- Failure of the document normalizer. -/
inductive NormalizeError where
  /-- The `RuntimeError("PDF illisible (Poppler requis ?)")` of line 28,
  or a PIL decode failure for an image upload. -/
  | unreadableDocument (msg : String) : NormalizeError

/-- PIL `img.convert("RGB")`: force the 3-channel color model,
discarding alpha or palette information. -/
def convertRGB (img : RasterImage) : RasterImage :=
  { img with mode := ImgMode.RGB }

/-- `pdf_to_image_bytes` (lines 24-31 of `src/app.py`).  The external
renderer `pdf2image.convert_from_bytes` is passed in as `render`; an
empty page list raises, otherwise the first page is saved as JPEG at
quality 90. -/
def pdf_to_image_bytes (render : List Nat → Nat → List RasterImage)
    (pdfBytes : List Nat) (dpi : Nat) : Except NormalizeError EncodedImage :=
  match render pdfBytes dpi with
  | [] => Except.error (NormalizeError.unreadableDocument "PDF illisible (Poppler requis ?)")
  | page :: _ => Except.ok (EncodedImage.jpeg 90 page)

/-- `image_file_to_bytes` (lines 33-38 of `src/app.py`).  The external
decoder `PIL.Image.open` is passed in as `decode`; a decoded image is
converted to RGB and saved as JPEG at quality 90. -/
def image_file_to_bytes (decode : List Nat → Option RasterImage)
    (fileBytes : List Nat) : Except NormalizeError EncodedImage :=
  match decode fileBytes with
  | some img => Except.ok (EncodedImage.jpeg 90 (convertRGB img))
  | none => Except.error (NormalizeError.unreadableDocument "cannot identify image file")

/-- The declared type of an uploaded document. -/
inductive DocType where
  | pdf : DocType
  | image : DocType

/-- An uploaded document: raw bytes plus the declared type. -/
structure SourceDocument where
  bytes : List Nat
  declaredType : DocType

/-- Lines 161-164 of `src/app.py`: a PDF upload goes through
`pdf_to_image_bytes` at 250 DPI, any other upload through
`image_file_to_bytes`. -/
def normalizeDocument (render : List Nat → Nat → List RasterImage)
    (decode : List Nat → Option RasterImage)
    (doc : SourceDocument) : Except NormalizeError EncodedImage :=
  match doc.declaredType with
  | DocType.pdf => pdf_to_image_bytes render doc.bytes 250
  | DocType.image => image_file_to_bytes decode doc.bytes

/-- A renderer producing no pages, for witnessing the zero-page
failure. -/
def emptyRender : List Nat → Nat → List RasterImage :=
  fun _ _ => []

/-- A sample decoded page with an alpha channel. -/
def sampleImage : RasterImage :=
  { mode := ImgMode.RGBA, width := 2, height := 2, pixelData := [0, 1, 2, 3] }

/-- A renderer producing exactly one page. -/
def oneRender : List Nat → Nat → List RasterImage :=
  fun _ _ => [sampleImage]

/-- A decoder that always succeeds with the sample page. -/
def someDecode : List Nat → Option RasterImage :=
  fun _ => some sampleImage

/-- A sample PDF upload. -/
def samplePdfDoc : SourceDocument :=
  { bytes := [7], declaredType := DocType.pdf }

/-- Whether a JSON value is an array (a Python list), the
`isinstance(lignes, list)` test of line 125. -/
def Json.isArr : Json → Bool
  | .arr _ => true
  | _ => false

/-- Pointwise-equal functions map lists equally. -/
theorem mapCongrMem {α β : Type} (l : List α) (f g : α → β)
    (h : ∀ a ∈ l, f a = g a) : l.map f = l.map g := by
  induction l with
  | nil => rfl
  | cons a tl ih =>
    simp only [List.map_cons]
    rw [h a (List.mem_cons_self a tl), ih (fun x hx => h x (List.mem_cons_of_mem a hx))]

/-- Looking up a key of a materialised key-value table finds the stored
value. -/
theorem dictLookup_map_pairs (g : String → Json) (ks : List String) (c : String)
    (hc : c ∈ ks) :
    dictLookup (ks.map (fun k => (k, g k))) c = some (c, g c) := by
  induction ks with
  | nil => cases hc
  | cons k tl ih =>
    by_cases hk : k = c
    · subst hk
      simp [dictLookup, List.find?]
    · have hc2 : c ∈ tl := by
        rcases List.mem_cons.mp hc with h1 | h1
        · exact absurd h1.symm hk
        · exact h1
      have : ((fun p : String × Json => p.1 == c) (k, g k)) = false := by
        simp [hk]
      simpa [dictLookup, List.find?, this] using ih hc2

/-- The keys of the `meta` dict are exactly the twelve header fields. -/
theorem metaRow_keys (data : Dict) : (metaRow data).map Prod.fst = headerFields := by
  have h : Prod.fst ∘ (fun k : String => (k, dictGet data k (Json.str ""))) = id := rfl
  rw [metaRow, List.map_map, h, List.map_id]

/-- Adding keys already present leaves the column list unchanged. -/
theorem addKeys_of_mem (ks : List String) :
    ∀ acc : List String, (∀ k ∈ ks, k ∈ acc) → addKeys acc ks = acc := by
  induction ks with
  | nil => intro acc _; rfl
  | cons k tl ih =>
    intro acc h
    have hk : k ∈ acc := h k (List.mem_cons_self k tl)
    have step : addKeys acc (k :: tl) = addKeys acc tl := by
      simp [addKeys, List.foldl_cons, hk]
    rw [step]
    exact ih acc (fun x hx => h x (List.mem_cons_of_mem k hx))

/-- Looking up a header field in the `meta` dict always succeeds with
`data.get(field, "")`. -/
theorem dictLookup_metaRow (data : Dict) (c : String) (hc : c ∈ headerFields) :
    dictLookup (metaRow data) c = some (c, dictGet data c (Json.str "")) :=
  dictLookup_map_pairs (fun k => dictGet data k (Json.str "")) headerFields c hc

/-- C1: for every ExtractedRecord (any mapping from field names to
values), the header sheet produced by projection contains exactly one
data row with all twelve scalar header columns in the schema's declared
order, with every field absent from the record defaulted to the empty
string. -/
theorem header_sheet_complete (data : Dict) :
    headerFields.length = 12 ∧
    (factureSheet data).header = headerFields ∧
    (factureSheet data).rows =
      [headerFields.map (fun k => some (dictGet data k (Json.str "")))] ∧
    (∀ k, dictLookup data k = none → dictGet data k (Json.str "") = Json.str "") := by
  have hcols : firstKeys [metaRow data] = headerFields := by
    unfold firstKeys
    simp only [List.foldl_cons, List.foldl_nil]
    rw [metaRow_keys]
    decide
  refine ⟨rfl, ?_, ?_, ?_⟩
  · simp only [factureSheet, sheetOfDf, dfOfRecords]
    exact hcols
  · simp only [factureSheet, sheetOfDf, dfOfRecords, List.map_cons, List.map_nil]
    rw [hcols]
    have hpt : headerFields.map (fun c => (dictLookup (metaRow data) c).map Prod.snd) =
        headerFields.map (fun k => some (dictGet data k (Json.str ""))) := by
      apply mapCongrMem
      intro c hc
      rw [dictLookup_metaRow data c hc]
      rfl
    rw [hpt]
  · intro k h
    simp [dictGet, h]

/-- Witness for C1 at a record carrying only `fournisseur`: the header
row is complete and an absent field defaults to the empty string. -/
theorem header_sheet_complete_witness :
    (factureSheet [("fournisseur", Json.str "ACME")]).header = headerFields ∧
    dictGet [("fournisseur", Json.str "ACME")] "tva" (Json.str "") = Json.str "" :=
  ⟨(header_sheet_complete [("fournisseur", Json.str "ACME")]).2.1,
   (header_sheet_complete [("fournisseur", Json.str "ACME")]).2.2.2 "tva" rfl⟩

/-- C2: whenever `lignes` is absent, null, not a list, or the empty
list, the "Lignes" sheet has zero data rows but exactly the six column
headers in fixed order, and the sheet is never omitted from the
export. -/
theorem lines_sheet_headers_when_empty (data : Dict)
    (h : dictLookup data "lignes" = none ∨
         dictGet data "lignes" (Json.arr []) = Json.null ∨
         (dictGet data "lignes" (Json.arr [])).isArr = false ∨
         dictGet data "lignes" (Json.arr []) = Json.arr []) :
    lignesSheet data = { header := lineFields, rows := [] } ∧
    (json_to_excel_bytes data).map Prod.fst = ["Facture", "Lignes"] := by
  have hll : lignesList data = [] := by
    rcases h with h | h | h | h
    · have hv : dictGet data "lignes" (Json.arr []) = Json.arr [] := by
        simp [dictGet, h]
      simp [lignesList, hv]
    · simp [lignesList, h]
    · cases hv : dictGet data "lignes" (Json.arr []) with
      | null => simp [lignesList, hv]
      | bool b => simp [lignesList, hv]
      | num lit => simp [lignesList, hv]
      | str s => simp [lignesList, hv]
      | arr ls => rw [hv] at h; simp [Json.isArr] at h
      | obj kvs => simp [lignesList, hv]
    · simp [lignesList, h]
  refine ⟨?_, rfl⟩
  simp [lignesSheet, hll, dfOfRecords, firstKeys, DataFrame.isEmpty]

/-- Witness for C2 at a record whose `lignes` is null. -/
theorem lines_sheet_headers_when_empty_witness :
    lignesSheet [("lignes", Json.null)] = { header := lineFields, rows := [] } ∧
    (json_to_excel_bytes [("lignes", Json.null)]).map Prod.fst = ["Facture", "Lignes"] :=
  lines_sheet_headers_when_empty [("lignes", Json.null)] (Or.inr (Or.inl rfl))

/-- C8: every export has exactly the two named sheets, and the
suggested filename is `facture_<numero>.xlsx` when a `numero_facture`
value is present, `facture_extrait.xlsx` when the key is absent. -/
theorem two_sheets_and_filename (data : Dict) :
    (json_to_excel_bytes data).map Prod.fst = ["Facture", "Lignes"] ∧
    (dictLookup data "numero_facture" = none →
      downloadFilename data = "facture_extrait.xlsx") ∧
    (∀ v, dictLookup data "numero_facture" = some ("numero_facture", v) →
      downloadFilename data = "facture_" ++ pyStr v ++ ".xlsx") := by
  refine ⟨rfl, ?_, ?_⟩
  · intro h
    unfold downloadFilename
    rw [h]
    rfl
  · intro v h
    unfold downloadFilename
    rw [h]

/-- Witness for C8: the fallback filename on the empty record, and the
filename for `numero_facture = "INV-42"`. -/
theorem two_sheets_and_filename_witness :
    downloadFilename [] = "facture_extrait.xlsx" ∧
    downloadFilename [("numero_facture", Json.str "INV-42")] = "facture_INV-42.xlsx" :=
  ⟨(two_sheets_and_filename []).2.1 rfl,
   (two_sheets_and_filename [("numero_facture", Json.str "INV-42")]).2.2
     (Json.str "INV-42") rfl⟩

/-- C9: projection is deterministic — two calls on the identical
record yield identical sheet contents. -/
theorem projection_deterministic (d1 d2 : Dict) (h : d1 = d2) :
    json_to_excel_bytes d1 = json_to_excel_bytes d2 := by
  rw [h]

/-- Witness for C9 on a concrete record. -/
theorem projection_deterministic_witness :
    json_to_excel_bytes [("numero_facture", Json.str "INV-42")] =
      json_to_excel_bytes [("numero_facture", Json.str "INV-42")] :=
  projection_deterministic [("numero_facture", Json.str "INV-42")]
    [("numero_facture", Json.str "INV-42")] rfl

/-- The keys of the materialised mapping of an object value are its own
keys. -/
theorem toDict_keys (j : Json) (h : j.isObj = true) :
    (Json.toDict j).map Prod.fst = j.keys := by
  cases j with
  | obj kvs => rfl
  | null => simp [Json.isObj] at h
  | bool b => simp [Json.isObj] at h
  | num lit => simp [Json.isObj] at h
  | str s => simp [Json.isObj] at h
  | arr elems => simp [Json.isObj] at h

/-- Folding further rows whose keys are all already columns leaves the
column list unchanged. -/
theorem foldl_addKeys_fixed (ks : List String) (rs : List Dict)
    (hrec : ∀ r ∈ rs, r.map Prod.fst = ks) :
    rs.foldl (fun a r => addKeys a (r.map Prod.fst)) ks = ks := by
  induction rs with
  | nil => rfl
  | cons r rest ih =>
    have hr : r.map Prod.fst = ks := hrec r (List.mem_cons_self r rest)
    have hstep : addKeys ks (r.map Prod.fst) = ks := by
      rw [hr]
      exact addKeys_of_mem ks ks (fun k hk => hk)
    simp only [List.foldl_cons, hstep]
    exact ih (fun x hx => hrec x (List.mem_cons_of_mem r hx))

/-- Column inference over a non-empty uniform family of mappings: when
every row has exactly the keys `ks` (in order) and `ks` has no
duplicates (expressed as `addKeys [] ks = ks`), the columns are `ks`. -/
theorem firstKeys_uniform (ks : List String) (h0 : addKeys [] ks = ks)
    (recs : List Dict) (hrec : ∀ r ∈ recs, r.map Prod.fst = ks)
    (hne : recs.isEmpty = false) :
    firstKeys recs = ks := by
  cases recs with
  | nil => simp at hne
  | cons r rest =>
    have hr : r.map Prod.fst = ks := hrec r (List.mem_cons_self r rest)
    show rest.foldl (fun a r2 => addKeys a (r2.map Prod.fst)) (addKeys [] (r.map Prod.fst)) = ks
    rw [hr, h0]
    exact foldl_addKeys_fixed ks rest (fun x hx => hrec x (List.mem_cons_of_mem r hx))

/-- C3 as stated is false: a line-item mapping with a key outside the
schema changes the columns.  For the record whose single line item
carries only the key `foo`, the "Lignes" sheet's columns are `["foo"]`,
not the six line-item fields. -/
theorem lines_sheet_columns_counterexample :
    (lignesSheet [("lignes", Json.arr [Json.obj [("foo", Json.str "x")]])]).header =
      ["foo"] ∧
    (lignesSheet [("lignes", Json.arr [Json.obj [("foo", Json.str "x")]])]).header ≠
      lineFields :=
  ⟨rfl, by decide⟩

/-- C3 amended: for a record whose `lignes` is a non-empty list of
line-item mappings each carrying exactly the six line-item field names
in schema order, the "Lignes" sheet has exactly one row per entry and
its columns are the six field names in fixed order (in general the
columns are the mappings' keys in order of first appearance, not a
fixed list). -/
theorem lines_sheet_rows_and_columns (data : Dict) (ls : List Json)
    (harr : dictGet data "lignes" (Json.arr []) = Json.arr ls)
    (hne : ls.isEmpty = false)
    (hkeys : ∀ j ∈ ls, j.isObj = true ∧ j.keys = lineFields) :
    (lignesSheet data).header = lineFields ∧
    (lignesSheet data).rows.length = ls.length := by
  have hll : lignesList data = ls := by
    simp [lignesList, harr]
  have hrecs : ∀ r ∈ ls.map Json.toDict, r.map Prod.fst = lineFields := by
    intro r hr
    rcases List.mem_map.mp hr with ⟨j, hj, rfl⟩
    rw [toDict_keys j (hkeys j hj).1]
    exact (hkeys j hj).2
  have hmapne : (ls.map Json.toDict).isEmpty = false := by
    cases ls with
    | nil => simp at hne
    | cons a tl => simp
  have hfk : firstKeys (ls.map Json.toDict) = lineFields :=
    firstKeys_uniform lineFields (by decide) (ls.map Json.toDict) hrecs hmapne
  have hempty : (dfOfRecords (ls.map Json.toDict)).isEmpty = false := by
    simp [dfOfRecords, DataFrame.isEmpty, hmapne, hfk]
    decide
  have hsheet : lignesSheet data = sheetOfDf (dfOfRecords (ls.map Json.toDict)) := by
    simp only [lignesSheet, hll, hempty, Bool.false_eq_true, if_false]
  constructor
  · rw [hsheet]
    simp only [sheetOfDf, dfOfRecords]
    exact hfk
  · rw [hsheet]
    simp only [sheetOfDf, dfOfRecords, List.length_map]

/-- Witness for the amended C3 at a record with one schema-complete
line item. -/
theorem lines_sheet_rows_and_columns_witness :
    (lignesSheet [("lignes", Json.arr [Json.obj [("description", Json.str "a"),
        ("quantite", Json.str "1"), ("unite", Json.str "u"),
        ("prix_unitaire_ht", Json.str "2"), ("tva_pourcent", Json.str "20"),
        ("total_ligne_ttc", Json.str "3")]])]).header = lineFields ∧
    (lignesSheet [("lignes", Json.arr [Json.obj [("description", Json.str "a"),
        ("quantite", Json.str "1"), ("unite", Json.str "u"),
        ("prix_unitaire_ht", Json.str "2"), ("tva_pourcent", Json.str "20"),
        ("total_ligne_ttc", Json.str "3")]])]).rows.length = 1 :=
  lines_sheet_rows_and_columns _
    [Json.obj [("description", Json.str "a"), ("quantite", Json.str "1"),
      ("unite", Json.str "u"), ("prix_unitaire_ht", Json.str "2"),
      ("tva_pourcent", Json.str "20"), ("total_ligne_ttc", Json.str "3")]]
    rfl rfl (by decide)

/-- C4: the interpreter trims and attempts a direct JSON parse of the
full text; exactly when that fails it falls back to the greedy
first-to-last-brace span; and the code-fenced example extracts the ACME
record. -/
theorem interpreter_two_tier :
    (∀ raw j, json_loads (pyStrip raw) = some j → interpret raw = Except.ok j) ∧
    (∀ raw, json_loads (pyStrip raw) = none →
      interpret raw =
        (match braceSpan (pyStrip raw) with
         | some span =>
           (match json_loads span with
            | some j => Except.ok j
            | none => Except.error InterpretError.jsonDecodeFailure)
         | none =>
           Except.error (InterpretError.unparsableResponse (take300 (pyStrip raw))))) ∧
    interpret "Sure! ```json\n\x7b\"fournisseur\":\"ACME\"\x7d\n```" =
      Except.ok (Json.obj [("fournisseur", Json.str "ACME")]) := by
  refine ⟨?_, ?_, rfl⟩
  · intro raw j h
    simp [interpret, h]
  · intro raw h
    simp [interpret, h]

/-- Witness for C4 at an input whose direct parse succeeds after
stripping. -/
theorem interpreter_two_tier_witness :
    interpret " 42 " = Except.ok (Json.num "42") :=
  interpreter_two_tier.1 " 42 " (Json.num "42") rfl

/-- C5 fails as stated: when a brace span exists but is itself invalid
JSON, the fallback `json.loads` on line 101 raises its own decode
error, which propagates uncaught and without any snippet, instead of
the snippet-carrying `ValueError`. -/
theorem unparsable_snippet_counterexample :
    interpret "\x7bnot json\x7d" = Except.error InterpretError.jsonDecodeFailure ∧
    InterpretError.jsonDecodeFailure ≠
      InterpretError.unparsableResponse "\x7bnot json\x7d" :=
  ⟨rfl, fun h => InterpretError.noConfusion h⟩

/-- C5 amended: when the direct parse fails and no brace span exists at
all, the interpreter fails with the `ValueError` carrying the first 300
characters of the stripped text as snippet; in particular the
brace-free input from the spec's test yields exactly that text.  (When
a span exists but is invalid JSON, a bare JSON decode error propagates
instead.) -/
theorem unparsable_when_no_span :
    (∀ raw, json_loads (pyStrip raw) = none → braceSpan (pyStrip raw) = none →
      interpret raw =
        Except.error (InterpretError.unparsableResponse (take300 (pyStrip raw)))) ∧
    interpret "I cannot process this request." =
      Except.error
        (InterpretError.unparsableResponse "I cannot process this request.") := by
  refine ⟨?_, rfl⟩
  intro raw h1 h2
  simp [interpret, h1, h2]

/-- Witness for the amended C5 at another brace-free input. -/
theorem unparsable_when_no_span_witness :
    interpret "No braces here" =
      Except.error (InterpretError.unparsableResponse "No braces here") :=
  unparsable_when_no_span.1 "No braces here" rfl rfl

/-- C10: the interpreter does not enforce that the recovered JSON is an
object: a JSON list or number response is returned as-is, and the
pipeline then hands that non-mapping to the projector, which fails at
`data.get` with `AttributeError`. -/
theorem interpreter_accepts_non_mappings :
    interpret "[1, 2]" = Except.ok (Json.arr [Json.num "1", Json.num "2"]) ∧
    (Json.arr [Json.num "1", Json.num "2"]).isObj = false ∧
    interpret "42" = Except.ok (Json.num "42") ∧
    (Json.num "42").isObj = false ∧
    interpretThenProject "[1, 2]" = Except.ok (Except.error PyError.attributeError) ∧
    interpretThenProject "42" = Except.ok (Except.error PyError.attributeError) :=
  ⟨rfl, rfl, rfl, rfl, rfl, rfl⟩

/-- C6: a PDF whose rendering yields zero pages is a hard failure with
the unreadable-document error; it is never returned as a silent empty
result. -/
theorem zero_page_pdf_fails (render : List Nat → Nat → List RasterImage)
    (pdfBytes : List Nat) (dpi : Nat) (h : render pdfBytes dpi = []) :
    pdf_to_image_bytes render pdfBytes dpi =
      Except.error
        (NormalizeError.unreadableDocument "PDF illisible (Poppler requis ?)") := by
  simp [pdf_to_image_bytes, h]

/-- Witness for C6 with a renderer producing no pages. -/
theorem zero_page_pdf_fails_witness :
    pdf_to_image_bytes emptyRender [] 250 =
      Except.error
        (NormalizeError.unreadableDocument "PDF illisible (Poppler requis ?)") :=
  zero_page_pdf_fails emptyRender [] 250 rfl

/-- C7: every successfully normalized document is a single-page JPEG at
quality 90: a PDF keeps only its first page rendered at 250 DPI, and an
image is decoded, forced to the 3-channel RGB model, and re-encoded. -/
theorem normalized_output_jpeg90 (render : List Nat → Nat → List RasterImage)
    (decode : List Nat → Option RasterImage) (doc : SourceDocument)
    (out : EncodedImage)
    (h : normalizeDocument render decode doc = Except.ok out) :
    (doc.declaredType = DocType.pdf →
      ((render doc.bytes 250).head?).map (EncodedImage.jpeg 90) = some out) ∧
    (doc.declaredType = DocType.image →
      ((decode doc.bytes).map
        (fun img => EncodedImage.jpeg 90 (convertRGB img))) = some out) ∧
    (∀ img : RasterImage, (convertRGB img).mode = ImgMode.RGB) := by
  obtain ⟨bs, dt⟩ := doc
  refine ⟨?_, ?_, fun img => rfl⟩
  · intro hp
    cases hp
    unfold normalizeDocument pdf_to_image_bytes at h
    cases hr : render bs 250 with
    | nil => rw [hr] at h; simp at h
    | cons p rest =>
      rw [hr] at h
      simp only [Except.ok.injEq] at h
      simp [h]
  · intro hp
    cases hp
    unfold normalizeDocument image_file_to_bytes at h
    cases hd : decode bs with
    | none => rw [hd] at h; simp at h
    | some img =>
      rw [hd] at h
      simp only [Except.ok.injEq] at h
      simp [h]

/-- Witness for C7 on a one-page render of a sample PDF upload. -/
theorem normalized_output_jpeg90_witness :
    ((oneRender [7] 250).head?).map (EncodedImage.jpeg 90) =
      some (EncodedImage.jpeg 90 sampleImage) :=
  (normalized_output_jpeg90 oneRender someDecode samplePdfDoc
    (EncodedImage.jpeg 90 sampleImage) rfl).1 rfl
